import Mathlib

/-!
Verification of the action-history / token-budget manager of the
browser-use LangChain tool examples.

The repository's tool adapters (`langchain_tools.py`) call an external
browser engine, convert its outcome into a result string, and compose an
observation string from the extracted content, a fixed separator, and the
page-state (DOM) text.  The spec additionally documents a token-budget
history manager (`BrowserUseManager.execute_action`, a HistoryLog, and a
token-level truncation policy); that variant of the tools module is part
of the repository but not among the files embedded here, so those parts
are modelled from the spec's own description and settled against it.

The tokenizer collaborator is instantiated with the character-level
tokenizer (one token per character), which satisfies the spec's tokenizer
interface: `encode`/`decode` with `decode (encode s) = s`.  The token-level
truncation policy itself is stated over arbitrary token sequences.
-/

/-- Modelled from the spec: the Tokenizer collaborator's `encode`
("given a string, returns an ordered sequence of token identifiers"),
instantiated as the character-level tokenizer. -/
def encode (s : String) : List Char := s.data

/-- Modelled from the spec: the Tokenizer collaborator's `decode`
(reconstructing text from a token subsequence). -/
def decode (ts : List Char) : String := String.mk ts

/-- Modelled from the spec: `count_tokens(text) -> integer >= 0`, the token
count of a string under the tokenizer. -/
def count_tokens (s : String) : Nat := (encode s).length

/-- Drop `e` trailing tokens from a span, keeping the head: the truncation
primitive "trim trailing tokens, decode the remainder". -/
def trimEnd {α : Type} (ts : List α) (e : Nat) : List α :=
  ts.take (ts.length - e)

/-- Modelled from the spec: the fixed sentinel string substituted for
fully-elided content. -/
def sentinelText : String := "[TRUNCATED DUE TO TOKEN LIMIT]"

/-- Modelled from the spec: the small fixed-text separator placed before the
page-state span. -/
def separatorText : String := "Current page clickable elements:\n"

/-- Modelled from the spec: the truncation policy of §4.3, over token
sequences.  Writing `total` for the sum of the four span lengths and
`excess = total - max_tokens`:
if `total <= max_tokens` all spans are emitted unmodified; else the latest
action result is truncated first (if its token count exceeds `excess`,
exactly `excess` trailing tokens are dropped and truncation stops;
otherwise it is replaced entirely by the sentinel and `excess` is reduced
by its original token count), and the same two-step rule is then applied
to the page-state span.  Returns the (possibly truncated) result span and
page-state span; the history span is never touched. -/
def truncate_spans {α : Type} (maxTokens : Nat) (sentinel sep hist res page : List α) :
    List α × List α :=
  if hist.length + res.length + page.length + sep.length ≤ maxTokens then
    (res, page)
  else if hist.length + res.length + page.length + sep.length - maxTokens < res.length then
    (trimEnd res (hist.length + res.length + page.length + sep.length - maxTokens), page)
  else if hist.length + res.length + page.length + sep.length - maxTokens - res.length
      < page.length then
    (sentinel,
      trimEnd page (hist.length + res.length + page.length + sep.length - maxTokens - res.length))
  else
    (sentinel, sentinel)

/-- Modelled from the spec: the RenderedContext at token level — rendered
history, then the (possibly truncated) latest action result, then the
separator, then the (possibly truncated) page-state span. -/
def rendered_context {α : Type} (maxTokens : Nat) (sentinel sep hist res page : List α) :
    List α :=
  hist ++ (truncate_spans maxTokens sentinel sep hist res page).1 ++ sep
    ++ (truncate_spans maxTokens sentinel sep hist res page).2

/-- Modelled from the spec: the RenderedContext as a string, under the
character-level tokenizer, with the repository's literal sentinel and
separator strings. -/
def rendered_context_str (maxTokens : Nat) (hist res page : String) : String :=
  decode (rendered_context maxTokens (encode sentinelText) (encode separatorText)
    (encode hist) (encode res) (encode page))

/-- Modelled from the spec: a HistoryEntry — `action_description` and
`result_text`; the 1-based sequence number is its position in the log. -/
structure HistoryEntry where
  action_description : String
  result_text : String
deriving DecidableEq

/-- Modelled from the spec: the HistoryLog, an ordered sequence of entries
in append (chronological) order. -/
abbrev HistoryLog := List HistoryEntry

/-- Concatenation of a list of strings (used to state what `render`
produces). -/
def joinStrings : List String → String
  | [] => ""
  | s :: rest => s ++ joinStrings rest

/-- Modelled from the spec: one rendered history block,
`"{n}. action: {action_description}\n   result: {result_text}\n"`. -/
def renderEntry (n : Nat) (entry : HistoryEntry) : String :=
  toString n ++ ". action: " ++ entry.action_description
    ++ "\n   result: " ++ entry.result_text ++ "\n"

/-- Rendering of a log tail whose first entry has sequence number `n`. -/
def renderFrom (n : Nat) : HistoryLog → String
  | [] => ""
  | entry :: rest => renderEntry n entry ++ renderFrom (n + 1) rest

/-- Modelled from the spec: `render()` — the deterministic textual rendering
of all entries in order, 1-based sequence numbers. -/
def render (log : HistoryLog) : String := renderFrom 1 log

/-- Outcome of invoking an action against the external browser engine:
a result object with optional extracted content, an engine-reported error
string, or an unexpected exception raised by any collaborator. -/
inductive EngineOutcome where
  | ok (extracted_content : Option String)
  | engineError (message : String)
  | raised (message : String)
deriving DecidableEq

/-- Python's `x or fallback` on an optional string: the fallback is used
when the value is absent or empty (falsy). -/
def pythonOr (s : Option String) (fallback : String) : String :=
  match s with
  | some c => if c.isEmpty then fallback else c
  | none => fallback

/-- Result text for an outcome: `"Error: {error}"` on engine-reported error,
the extracted content or the fallback placeholder on success, and
`"Exception in {action_name}: {error}"` for an unexpected exception. -/
def result_text_of (action_name : String) (outcome : EngineOutcome) (fallback : String) :
    String :=
  match outcome with
  | .ok extracted => pythonOr extracted fallback
  | .engineError e => "Error: " ++ e
  | .raised e => "Exception in " ++ action_name ++ ": " ++ e

/-- Modelled from the spec: `execute_action` (§4.4), the missing manager
entry point.  It converts the engine outcome into a result text, appends
`(action_description, result_text)` to the history log in every case, and
returns the budget-compliant composed context (on an unexpected exception
the textual error message itself is returned instead of propagating; the
function is total, so no exception ever escapes to the caller).  The
history span composed into the context is the rendering of the log as it
stood before this call's append; the latest result is its own span. -/
def execute_action (maxTokens : Nat) (log : HistoryLog)
    (action_name action_description : String) (outcome : EngineOutcome)
    (fallback : String) (page_state : String) : HistoryLog × String :=
  let result_text := result_text_of action_name outcome fallback
  let newLog := log ++ [⟨action_description, result_text⟩]
  match outcome with
  | .raised _ => (newLog, result_text)
  | _ => (newLog, rendered_context_str maxTokens (render log) result_text page_state)

/-- State of the manager's browser resources: `session` is
`browser_context.session`; `playwright_browser` is the browser's underlying
resource handle. -/
structure BrowserUseManager where
  session : Option Nat
  playwright_browser : Option Nat
deriving DecidableEq

/-- Modelled from the spec: `BrowserContext.close` (repository code outside
the embedded files) releases the browsing-context session and clears it.
Returns the new state and the list of resources released by the call. -/
def browserContextClose (m : BrowserUseManager) : BrowserUseManager × List String :=
  ({ m with session := none }, ["browser_context_session"])

/-- Modelled from the spec: `Browser.close` (repository code outside the
embedded files) releases the underlying browser resource when still held
and clears the handle; on an already-closed browser it does nothing. -/
def browserClose (m : BrowserUseManager) : BrowserUseManager × List String :=
  match m.playwright_browser with
  | some _ => ({ m with playwright_browser := none }, ["playwright_browser"])
  | none => (m, [])

/-- `BrowserUseManager.shutdown` from `langchain_tools.py`: close the
browser context only when its session is still present, then close the
browser.  Returns the new state and the resources released. -/
def shutdown (m : BrowserUseManager) : BrowserUseManager × List String :=
  if m.session.isSome then
    ((browserClose (browserContextClose m).1).1,
      (browserContextClose m).2 ++ (browserClose (browserContextClose m).1).2)
  else
    ((browserClose m).1, (browserClose m).2)

/-- Truncation step of `get_page_dom_info` from `langchain_tools.py`: when
the DOM text (a Python string, embedded as its character list) is longer
than `max_length`, keep the first `max_length` characters and append the
marker `"...(truncated)"`; otherwise return it unchanged. -/
def get_page_dom_info (dom_text : List Char) (max_length : Nat) : List Char :=
  if dom_text.length > max_length then
    dom_text.take max_length ++ "...(truncated)".data
  else
    dom_text

/-- `DoneTool._arun` from `langchain_tools.py`, as a function of the engine
outcome: on engine error `"Error: {error}"`, on success the extracted
content or `"Task done."` — with no separator and no page-state text —
and on an exception `"Exception in done: {e}"`. -/
def done_arun (outcome : EngineOutcome) : String :=
  match outcome with
  | .ok extracted => pythonOr extracted "Task done."
  | .engineError e => "Error: " ++ e
  | .raised e => "Exception in done: " ++ e

/-- `ClickElementTool._arun` from `langchain_tools.py`, as a function of the
engine outcome and the fetched DOM text: the success path appends the
separator and the page-state text to the extracted content. -/
def click_element_arun (outcome : EngineOutcome) (dom_text : String) : String :=
  match outcome with
  | .ok extracted =>
      pythonOr extracted "Clicked element." ++ "\nCurrent page clickable elements:\n" ++ dom_text
  | .engineError e => "Error: " ++ e
  | .raised e => "Exception in click_element: " ++ e

/-! Helper lemmas. -/

theorem trimEnd_length {α : Type} (l : List α) (e : Nat) :
    (trimEnd l e).length = l.length - e := by
  simp [trimEnd, List.length_take]

theorem decode_append (l m : List Char) : decode (l ++ m) = decode l ++ decode m := rfl

theorem decode_encode (s : String) : decode (encode s) = s := rfl

/-! Claim theorems. -/

/-- C3: for every action name and every exception message raised by a
collaborator, `execute_action` converts the exception to
`"Exception in {action_name}: {error}"`, records it into the history log
like a normal result, and returns it as the call's value; the function is
total, so no exception propagates to the caller. -/
theorem C3_exception_boundary (maxTokens : Nat) (log : HistoryLog)
    (action_name action_description e fallback page_state : String) :
    execute_action maxTokens log action_name action_description (.raised e) fallback page_state
      = (log ++ [⟨action_description, "Exception in " ++ action_name ++ ": " ++ e⟩],
        "Exception in " ++ action_name ++ ": " ++ e) := rfl

/-- C4: when the engine reports an error string `e` the result text is
exactly `"Error: " ++ e`; on success it is the extracted content or the
fallback placeholder; and in both cases the pair
`(action_description, result_text)` is appended to the history log. -/
theorem C4_error_text_and_recording (maxTokens : Nat) (log : HistoryLog)
    (action_name action_description e fallback page_state : String)
    (extracted : Option String) :
    result_text_of action_name (.engineError e) fallback = "Error: " ++ e
    ∧ result_text_of action_name (.ok extracted) fallback = pythonOr extracted fallback
    ∧ (execute_action maxTokens log action_name action_description (.engineError e)
        fallback page_state).1
      = log ++ [⟨action_description, "Error: " ++ e⟩]
    ∧ (execute_action maxTokens log action_name action_description (.ok extracted)
        fallback page_state).1
      = log ++ [⟨action_description, pythonOr extracted fallback⟩] :=
  ⟨rfl, rfl, rfl, rfl⟩

/-- C8: `shutdown` is idempotent — running it a second time on an already
shut-down manager releases no further resources and leaves the manager
state unchanged. -/
theorem C8_shutdown_idempotent (m : BrowserUseManager) :
    shutdown (shutdown m).1 = ((shutdown m).1, []) := by
  cases m with
  | mk s b => cases s <;> cases b <;> rfl

/-- C9: `get_page_dom_info` truncates the DOM text by character count with
the default limit 3000: text of at most 3000 characters is returned
unchanged, longer text is cut to its first 3000 characters followed by the
marker `"...(truncated)"` (not the token-limit sentinel), 3014 characters
in all. -/
theorem C9_dom_truncation_by_chars (s : List Char) :
    (s.length ≤ 3000 → get_page_dom_info s 3000 = s)
    ∧ (3000 < s.length →
        get_page_dom_info s 3000 = s.take 3000 ++ "...(truncated)".data
        ∧ (get_page_dom_info s 3000).length = 3014
        ∧ get_page_dom_info s 3000 ≠ sentinelText.data) := by
  have h14 : ("...(truncated)".data).length = 14 := by decide
  have h30 : (sentinelText.data).length = 30 := by decide
  constructor
  · intro h
    simp [get_page_dom_info, Nat.not_lt.mpr h]
  · intro h
    have hlen : (get_page_dom_info s 3000).length = 3014 := by
      simp [get_page_dom_info, h, List.length_take, h14]
      omega
    refine ⟨by simp [get_page_dom_info, h], hlen, ?_⟩
    intro hEq
    rw [hEq, h30] at hlen
    exact absurd hlen (by decide)

/-- Witness for C9: a short DOM text is returned unchanged, and a DOM text
of 3001 characters truncates to exactly 3014 characters. -/
theorem C9_dom_truncation_by_chars_witness :
    get_page_dom_info ['a'] 3000 = ['a']
    ∧ (get_page_dom_info (List.replicate 3001 'a') 3000).length = 3014 := by
  refine ⟨(C9_dom_truncation_by_chars ['a']).1 (by decide), ?_⟩
  have h := (C9_dom_truncation_by_chars (List.replicate 3001 'a')).2
    (by rw [List.length_replicate]; omega)
  exact h.2.1

/-- C10: the done action's success path returns the extracted content alone
(or the fallback `"Task done."`), with no separator and no page-state text,
unlike the other tools' success path (shown here for `click_element`). -/
theorem C10_done_returns_content_alone (extracted : Option String) (dom_text : String) :
    done_arun (.ok extracted) = pythonOr extracted "Task done."
    ∧ click_element_arun (.ok extracted) dom_text
      = pythonOr extracted "Clicked element."
        ++ "\nCurrent page clickable elements:\n" ++ dom_text :=
  ⟨rfl, rfl⟩

/-- C1 counterexample: with `max_tokens = 50`, a history of 10 tokens, a
result of 10 tokens and a page state of 40 tokens (separator: 33 tokens),
the spans exceed the budget, the composed output has 80 > 50 tokens, and
yet the page-state span was trimmed, not sentinel-replaced — so the
claim's single documented exception does not apply: replacing the result
span by the sentinel adds the sentinel's own tokens, which the policy
never counts against the budget. -/
theorem C1_budget_counterexample :
    50 < count_tokens "0123456789" + count_tokens "abcdefghij"
        + count_tokens "0123456789012345678901234567890123456789"
        + count_tokens separatorText
    ∧ 50 < count_tokens (rendered_context_str 50 "0123456789" "abcdefghij"
        "0123456789012345678901234567890123456789")
    ∧ ¬((truncate_spans 50 (encode sentinelText) (encode separatorText)
          (encode "0123456789") (encode "abcdefghij")
          (encode "0123456789012345678901234567890123456789")).1 = encode sentinelText
        ∧ (truncate_spans 50 (encode sentinelText) (encode separatorText)
          (encode "0123456789") (encode "abcdefghij")
          (encode "0123456789012345678901234567890123456789")).2 = encode sentinelText
        ∧ 50 < count_tokens "0123456789" + count_tokens separatorText) := by
  decide

/-- C1 (amended): the composed output's token count is at most the budget,
except that each sentinel replacement adds the sentinel's own token count:
either the output fits the budget; or only the result span was replaced
and the output is exactly `max_tokens` plus one sentinel; or both spans
were replaced — which happens exactly when history plus separator already
reach the budget — and the output is history plus separator plus two
sentinels. -/
theorem C1_budget_with_sentinel_slack {α : Type} (maxTokens : Nat)
    (sentinel sep hist res page : List α) :
    (rendered_context maxTokens sentinel sep hist res page).length ≤ maxTokens
    ∨ ((truncate_spans maxTokens sentinel sep hist res page).1 = sentinel
        ∧ (rendered_context maxTokens sentinel sep hist res page).length
          = maxTokens + sentinel.length)
    ∨ ((truncate_spans maxTokens sentinel sep hist res page).1 = sentinel
        ∧ (truncate_spans maxTokens sentinel sep hist res page).2 = sentinel
        ∧ maxTokens ≤ hist.length + sep.length
        ∧ (rendered_context maxTokens sentinel sep hist res page).length
          = hist.length + sep.length + 2 * sentinel.length) := by
  unfold rendered_context truncate_spans
  split_ifs with h1 h2 h3
  · left
    simp only [List.length_append]
    omega
  · left
    simp only [List.length_append, trimEnd_length]
    omega
  · right; left
    refine ⟨rfl, ?_⟩
    simp only [List.length_append, trimEnd_length]
    omega
  · right; right
    refine ⟨rfl, rfl, by omega, ?_⟩
    simp only [List.length_append]
    omega

/-- C2: when the total exceeds the budget, the result span is truncated
first (trimmed by exactly the excess from its end when its token count
exceeds the excess, otherwise replaced by the sentinel with the excess
reduced by its original token count), the same two-step rule is then
applied to the page-state span, and the history span is never truncated —
it appears unmodified at the head of the composed context. -/
theorem C2_truncation_order {α : Type} (maxTokens : Nat)
    (sentinel sep hist res page : List α)
    (hover : maxTokens < hist.length + res.length + page.length + sep.length) :
    (hist.length + res.length + page.length + sep.length - maxTokens < res.length →
      truncate_spans maxTokens sentinel sep hist res page
        = (trimEnd res (hist.length + res.length + page.length + sep.length - maxTokens),
          page))
    ∧ (res.length ≤ hist.length + res.length + page.length + sep.length - maxTokens →
        (truncate_spans maxTokens sentinel sep hist res page).1 = sentinel
        ∧ (hist.length + res.length + page.length + sep.length - maxTokens - res.length
              < page.length →
            (truncate_spans maxTokens sentinel sep hist res page).2
              = trimEnd page
                (hist.length + res.length + page.length + sep.length - maxTokens
                  - res.length))
        ∧ (page.length ≤ hist.length + res.length + page.length + sep.length - maxTokens
              - res.length →
            (truncate_spans maxTokens sentinel sep hist res page).2 = sentinel))
    ∧ rendered_context maxTokens sentinel sep hist res page
        = hist ++ (truncate_spans maxTokens sentinel sep hist res page).1 ++ sep
          ++ (truncate_spans maxTokens sentinel sep hist res page).2 := by
  refine ⟨?_, ?_, rfl⟩
  · intro h
    unfold truncate_spans
    rw [if_neg (by omega), if_pos h]
  · intro h
    unfold truncate_spans
    rw [if_neg (by omega), if_neg (by omega)]
    refine ⟨?_, ?_, ?_⟩
    · by_cases h3 : hist.length + res.length + page.length + sep.length - maxTokens
          - res.length < page.length
      · rw [if_pos h3]
      · rw [if_neg h3]
    · intro h3
      rw [if_pos h3]
    · intro h3
      rw [if_neg (by omega)]

/-- Witness for C2, the spec's §8 scenario at token level: budget 50,
history of 10 tokens, result of 10 tokens, page state of 40 tokens,
separator of 5 tokens — the result span is replaced by the sentinel and
the page-state span is trimmed by 5 trailing tokens. -/
theorem C2_truncation_order_witness :
    (truncate_spans 50 (List.replicate 30 0) (List.replicate 5 0) (List.replicate 10 0)
        (List.replicate 10 0) (List.range 40)).1 = List.replicate 30 0
    ∧ (truncate_spans 50 (List.replicate 30 0) (List.replicate 5 0) (List.replicate 10 0)
        (List.replicate 10 0) (List.range 40)).2 = trimEnd (List.range 40) 5 := by
  have h := C2_truncation_order 50 (List.replicate 30 0) (List.replicate 5 0)
    (List.replicate 10 0) (List.replicate 10 0) (List.range 40) (by decide)
  exact ⟨(h.2.1 (by decide)).1, (h.2.1 (by decide)).2.1 (by decide)⟩

/-- C5: when the three spans plus the separator fit within the budget, the
composed output is the three spans unmodified — history, result, then the
fixed separator and the page-state text — byte-identical to their raw
concatenation. -/
theorem C5_no_truncation_identity (maxTokens : Nat) (hist res page : String)
    (hfit : count_tokens hist + count_tokens res + count_tokens page
        + count_tokens separatorText ≤ maxTokens) :
    rendered_context_str maxTokens hist res page
      = hist ++ res ++ separatorText ++ page := by
  unfold rendered_context_str rendered_context truncate_spans
  rw [if_pos (show (encode hist).length + (encode res).length + (encode page).length
      + (encode separatorText).length ≤ maxTokens from hfit)]
  show decode (encode hist ++ encode res ++ encode separatorText ++ encode page) = _
  rw [decode_append, decode_append, decode_append, decode_encode, decode_encode,
    decode_encode, decode_encode]

/-- Witness for C5: a small concrete instance of the identity. -/
theorem C5_no_truncation_identity_witness :
    rendered_context_str 1000 "a" "b" "c" = "a" ++ "b" ++ separatorText ++ "c" :=
  C5_no_truncation_identity 1000 "a" "b" "c" (by decide)

/-- C6: truncation removes tokens from the end of a span — for a span `s`
and an excess `e` below its token count, the trimmed span decodes to the
prefix of `s` whose token sequence is the first `len - e` tokens (the
dropped suffix decodes to the rest of `s`), and its token count is the
original count minus `e`; content near the beginning survives. -/
theorem C6_trim_keeps_head (s : String) (e : Nat) (_he : e < count_tokens s) :
    decode (trimEnd (encode s) e) ++ decode ((encode s).drop ((encode s).length - e)) = s
    ∧ count_tokens (decode (trimEnd (encode s) e)) = count_tokens s - e := by
  constructor
  · rw [← decode_append]
    unfold trimEnd
    rw [List.take_append_drop]
    exact decode_encode s
  · show (trimEnd (encode s) e).length = _
    rw [trimEnd_length]
    rfl

/-- Witness for C6: trimming 2 trailing tokens from `"hello"` leaves the
3-token head `"hel"`. -/
theorem C6_trim_keeps_head_witness :
    decode (trimEnd (encode "hello") 2)
        ++ decode ((encode "hello").drop ((encode "hello").length - 2)) = "hello"
    ∧ count_tokens (decode (trimEnd (encode "hello") 2)) = count_tokens "hello" - 2 :=
  C6_trim_keeps_head "hello" 2 (by decide)

/-- Shifting lemma for rendering: mapping the block renderer over an index
list shifted by one equals mapping with the base sequence number increased
by one. -/
theorem zip_map_succ_renderEntry (n : Nat) (l : List Nat) (r : HistoryLog) :
    ((l.map Nat.succ).zip r).map (fun p => renderEntry (p.1 + n) p.2)
      = (l.zip r).map (fun p => renderEntry (p.1 + (n + 1)) p.2) := by
  induction l generalizing r with
  | nil => rfl
  | cons a t ih =>
    cases r with
    | nil => rfl
    | cons b s =>
      simp only [List.map_cons, List.zip_cons_cons, ih]
      have ha : Nat.succ a + n = a + (n + 1) := by omega
      rw [ha]

/-- Rendering a log tail starting at sequence number `n` is the join of one
block per entry, numbered consecutively from `n`. -/
theorem renderFrom_eq_join (n : Nat) (log : HistoryLog) :
    renderFrom n log = joinStrings (((List.range log.length).zip log).map
      (fun p => renderEntry (p.1 + n) p.2)) := by
  induction log generalizing n with
  | nil => rfl
  | cons entry rest ih =>
    simp only [renderFrom, List.length_cons, List.range_succ_eq_map, List.zip_cons_cons,
      List.map_cons, joinStrings, zip_map_succ_renderEntry, Nat.zero_add]
    rw [ih (n + 1)]

/-- C7: for any log of N appended entries, `render` returns the
concatenation, in append order, of exactly one block per entry, the k-th
block formatted by `renderEntry` with the 1-based sequence number k — so
the output contains exactly N numbered blocks 1..N. -/
theorem C7_render_numbered_blocks (log : HistoryLog) :
    render log = joinStrings (((List.range log.length).zip log).map
      (fun p => renderEntry (p.1 + 1) p.2)) :=
  renderFrom_eq_join 1 log
